import Mathlib

/-!
Shallow embedding of the computation engine of `src/app.py`
(Cosmic Radiation Research Dashboard).

Conventions:
- Python floats are modelled as exact rationals (`ℚ`); `np.exp` is modelled
  as the real exponential, so the one exponential-attenuation definition
  lands in `ℝ`.
- A Python dict literal is modelled as an association list; a raw
  subscript lookup `d[k]` is modelled by `dictLookup`, which returns
  `Except.error PyError.KeyError` on a missing key, exactly the exception
  the Python lookup raises.
- A network fetch is modelled by its two possible outcomes: the parsed
  payload, or an exception carried as `Except.error`.
- `np.random.normal` draws are modelled as an arbitrary list of rationals
  handed to the deterministic post-processing the code applies to them.
-/

namespace Astral

/-- Errors a computation can fail with. `KeyError` is what a Python dict
subscript raises on a missing key; `InvalidParameter` is the validated
error the specification's error taxonomy prescribes (no code path in
`app.py` produces it). -/
inductive PyError where
  | KeyError
  | InvalidParameter
deriving DecidableEq, Repr

/-- Raw Python dict subscript `d[k]` over an association list:
the value when the key is present, a `KeyError` otherwise. -/
def dictLookup (d : List (String × ℚ)) (k : String) : Except PyError ℚ :=
  match d.lookup k with
  | some v => Except.ok v
  | none => Except.error PyError.KeyError

/-! ### Tab 1: Radiation Risk Calculator (app.py lines 54-116) -/

/-- `fetch_json` (app.py line 23): `try: return requests.get(url).json()
except: return None`. The transport outcome is the argument; the payload is
the parsed flux column. -/
def fetch_json (response : Except String (List ℚ)) : Option (List ℚ) :=
  match response with
  | Except.ok payload => some payload
  | Except.error _ => none

/-- Flux actually used (app.py lines 64-72): on data, the last entry of the
parsed flux column (iloc at index -1; `none` models the IndexError on an
empty frame); on fetch failure, the fallback constant 100. -/
def flux_used : Option (List ℚ) → Option ℚ
  | some series => series.getLast?
  | none => some 100

/-- `base_dose_per_day = flux * 0.00005` (app.py line 74). -/
def base_dose_per_day (flux : ℚ) : ℚ := flux * 0.00005

/-- `shield_factors` dict (app.py lines 75-84). -/
def shield_factors : List (String × ℚ) :=
  [ ("None", 1.0), ("Aluminum", 0.7), ("Polyethylene", 0.5), ("Lead", 0.3),
    ("Water", 0.6), ("Titanium", 0.75), ("Carbon Fiber", 0.65),
    ("Hydrogen-rich Plastic", 0.4) ]

/-- `daily_dose = base_dose_per_day * shield_factors[shielding_material]`
(app.py line 86), with the looked-up factor passed as a scalar. -/
def daily_dose (flux : ℚ) (factor : ℚ) : ℚ := base_dose_per_day flux * factor

/-- `total_dose = daily_dose * mission_days` (app.py line 87). -/
def total_dose (dd : ℚ) (mission_days : ℕ) : ℚ := dd * mission_days

/-- `risk_percent = (total_dose / 1000) * 5` (app.py line 88). -/
def risk_percent (td : ℚ) : ℚ := td / 1000 * 5

/-- `dose_over_time = daily_dose * days` for `days = np.arange(1,
mission_days + 1)` (app.py lines 94-95): the cumulative dose series, whose
index-`k` entry is the dose after day `k + 1`. -/
def dose_over_time (dd : ℚ) (mission_days : ℕ) : List ℚ :=
  (List.range mission_days).map (fun (k : ℕ) => dd * ((k : ℚ) + 1))

/-- Post-processing of the astronaut Monte-Carlo draws (app.py line 107):
`simulated_doses = np.random.normal(...)` is used as drawn, no clipping. -/
def simulated_doses (draws : List ℚ) : List ℚ := draws

/-! ### Tab 3: Biological Effects Visualizer (app.py lines 268-349) -/

/-- `BASE_RATE = 0.00104` mSv/day (app.py line 285). -/
def BASE_RATE : ℚ := 0.00104

/-- `raw_dose = days * BASE_RATE` (app.py line 288). -/
def raw_dose (days : ℕ) : ℚ := days * BASE_RATE

/-- Age modifier (app.py lines 291-301): 1.4 below 10, 1.2 below 20,
0.9 above 60, otherwise 1.0. -/
def age_modifier (age : ℕ) : ℚ :=
  if age < 10 then 1.4
  else if age < 20 then 1.2
  else if age > 60 then 0.9
  else 1.0

/-- Gender modifier (app.py lines 292, 303-310): 1.1 for "Female",
otherwise left at its initial value 1.0. -/
def gender_modifier (gender : String) : ℚ :=
  if gender = "Female" then 1.1 else 1.0

/-- `adjusted_dose = raw_dose * age_modifier * gender_modifier`
(app.py line 313). -/
def adjusted_dose (age : ℕ) (gender : String) (days : ℕ) : ℚ :=
  raw_dose days * age_modifier age * gender_modifier gender

/-- The biological-effect classifier (app.py lines 317-331): the if/elif
chain on `adjusted_dose` selecting the effect text. Its last branch covers
all doses from 30 mSv up; there is no separate branch at 50. -/
def effect (d : ℚ) : String :=
  if d < 1 then "No observable effects."
  else if d < 5 then "Minor biological impact."
  else if d < 15 then "Mild ARS possible."
  else if d < 30 then "Severe ARS symptoms."
  else "Potentially life-threatening dose."

/-- The finer adjusted-dose band table that the Tab-3 severity chart draws
(app.py lines 348-349: thresholds [0, 1, 5, 15, 30, 50] with labels
["None", "Minor", "Mild ARS", "Severe ARS", "Lethal", "Extreme/Fatal"]),
read as a classifier the way claim C3 reads it. These labels only annotate
the chart; the classifier the code runs is `effect`. -/
def chart_band_label (d : ℚ) : String :=
  if d < 1 then "None"
  else if d < 5 then "Minor"
  else if d < 15 then "Mild ARS"
  else if d < 30 then "Severe ARS"
  else if d < 50 then "Lethal"
  else "Extreme/Fatal"

/-! ### Tab 4: Effects on Electronics (app.py lines 415-497) -/

/-- The SEU risk categorization (app.py lines 450-458): the if/elif chain
on `total_seus` selecting the risk level. -/
def risk (total_seus : ℚ) : String :=
  if total_seus < 1 then "Low"
  else if total_seus < 5 then "Moderate"
  else "High"

/-- Post-processing of the device Monte-Carlo draws (app.py lines 477-478):
`np.clip(simulated_failures, 0, None)` replaces each negative draw by 0. -/
def simulated_failures (draws : List ℚ) : List ℚ :=
  draws.map (fun x => max x 0)

/-! ### Tab 6: Mission Dose Comparator (app.py lines 561-723) -/

/-- The fields of the parsed ESA payload that
`fetch_space_radiation_data` reads with `.get` (app.py lines 576-578);
`none` models an absent key. -/
structure EsaData where
  lunar_surface : Option ℚ
  mars_transit : Option ℚ
  galactic : Option ℚ
deriving DecidableEq, Repr

/-- The rate dictionary returned by `fetch_space_radiation_data`
(app.py lines 574-587). -/
structure RadiationData where
  iss : ℚ
  lunar : ℚ
  mars_transit : ℚ
  deep_space : ℚ
deriving DecidableEq, Repr

/-- `fetch_space_radiation_data` (app.py lines 567-587): on a successful
fetch, iss is the hardcoded 0.3 and the other rates come from the payload
with defaults 0.5 / 1.8 / 2.5; on any exception, the all-fallback dict. -/
def fetch_space_radiation_data (response : Except String EsaData) :
    RadiationData :=
  match response with
  | Except.ok esa_data =>
      { iss := 0.3
        lunar := esa_data.lunar_surface.getD 0.5
        mars_transit := esa_data.mars_transit.getD 1.8
        deep_space := esa_data.galactic.getD 2.5 }
  | Except.error _ =>
      { iss := 0.3, lunar := 0.5, mars_transit := 1.8, deep_space := 2.5 }

/-- `attenuation_factors` dict (app.py lines 609-614). -/
def attenuation_factors : List (String × ℚ) :=
  [ ("Aluminum", 0.07), ("Polyethylene", 0.05), ("Water", 0.06),
    ("Regolith", 0.04) ]

/-- `shielding_factor = np.exp(-thickness * attenuation_factors[material])`
(app.py line 615), with the looked-up coefficient passed as a scalar. -/
noncomputable def shielding_factor (thickness coeff : ℚ) : ℝ :=
  Real.exp (-((thickness : ℝ) * (coeff : ℝ)))

/-- `base_doses` dict (app.py lines 644-650). -/
def base_doses (rd : RadiationData) : List (String × ℚ) :=
  [ ("ISS (Low Earth Orbit)", rd.iss), ("Lunar Orbit", rd.lunar),
    ("Lunar Surface", rd.lunar * 1.2), ("Mars Transit", rd.mars_transit),
    ("Deep Space", rd.deep_space) ]

end Astral

namespace Astral

/-- C1: for every mission duration `d ≥ 1` and daily dose rate `r ≥ 0`, the
cumulative dose series has length `d`, its index-`i` entry (day `i + 1`)
equals `r * (i + 1)`, it is monotonically non-decreasing, its last entry is
`total_dose`, and `total_dose = r * d`. -/
theorem C1_dose_series (r : ℚ) (d : ℕ) (hd : 1 ≤ d) (hr : 0 ≤ r) :
    (dose_over_time r d).length = d ∧
    (∀ i, i < d → (dose_over_time r d)[i]? = some (r * (i + 1))) ∧
    (dose_over_time r d).Pairwise (· ≤ ·) ∧
    (dose_over_time r d).getLast? = some (total_dose r d) ∧
    total_dose r d = r * d := by
  have hlen : (dose_over_time r d).length = d := by
    simp [dose_over_time]
  have hget : ∀ i, i < d → (dose_over_time r d)[i]? = some (r * (i + 1)) := by
    intro i hi
    simp [dose_over_time, List.getElem?_map, List.getElem?_range hi]
  refine ⟨hlen, hget, ?_, ?_, rfl⟩
  · rw [dose_over_time, List.pairwise_map]
    refine (List.pairwise_lt_range d).imp ?_
    intro a b hab
    have hc : (a : ℚ) + 1 ≤ (b : ℚ) + 1 := by
      exact_mod_cast Nat.succ_le_succ hab.le
    exact mul_le_mul_of_nonneg_left hc hr
  · rw [List.getLast?_eq_getElem?, hlen]
    rw [hget (d - 1) (by omega)]
    have hcast : ((d - 1 : ℕ) : ℚ) + 1 = (d : ℚ) := by
      have h1 : (d - 1) + 1 = d := by omega
      exact_mod_cast congrArg (Nat.cast : ℕ → ℚ) h1
    rw [hcast, total_dose]

/-- C1 witness: the series properties at `r = 2`, `d = 3`. -/
theorem C1_dose_series_witness :
    (dose_over_time 2 3).length = 3 ∧
    (∀ (i : ℕ), i < 3 → (dose_over_time 2 3)[i]? = some ((2 : ℚ) * ((i : ℚ) + 1))) ∧
    (dose_over_time 2 3).Pairwise (· ≤ ·) ∧
    (dose_over_time 2 3).getLast? = some (total_dose 2 3) ∧
    total_dose 2 3 = (2 : ℚ) * (3 : ℕ) :=
  C1_dose_series 2 3 (by norm_num) (by norm_num)

/-- C2: with flux 100, shielding "Aluminum" (table factor 0.7) and 180
days, the engine yields daily_dose = 0.0035, total_dose = 0.63 and
risk_percent = 0.00315. -/
theorem C2_example_scenario :
    dictLookup shield_factors "Aluminum" = Except.ok (0.7 : ℚ) ∧
    daily_dose 100 0.7 = 100 * 0.00005 * 0.7 ∧
    daily_dose 100 0.7 = 0.0035 ∧
    total_dose (daily_dose 100 0.7) 180 = 0.63 ∧
    risk_percent (total_dose (daily_dose 100 0.7) 180) = 0.63 / 1000 * 5 ∧
    risk_percent (total_dose (daily_dose 100 0.7) 180) = 0.00315 := by
  refine ⟨by rfl, ?_, ?_, ?_, ?_, ?_⟩ <;>
    norm_num [daily_dose, base_dose_per_day, total_dose, risk_percent]

/-- A successful association-list lookup yields one of the stored values. -/
theorem lookup_mem_snd {l : List (String × ℚ)} {k : String} {v : ℚ}
    (h : List.lookup k l = some v) : v ∈ l.map Prod.snd := by
  induction l with
  | nil => simp [List.lookup] at h
  | cons p rest ih =>
      obtain ⟨a, b⟩ := p
      rw [List.lookup] at h
      by_cases hk : (k == a) = true
      · rw [hk] at h
        simp at h
        simp [h]
      · rw [Bool.not_eq_true] at hk
        rw [hk] at h
        simp only [List.map_cons, List.mem_cons]
        exact Or.inr (ih h)

/-- Looking up a key absent from an association list yields nothing. -/
theorem lookup_eq_none_of_not_mem_keys {l : List (String × ℚ)} {k : String}
    (h : ¬ k ∈ l.map Prod.fst) : List.lookup k l = none := by
  rw [List.lookup_eq_none_iff]
  intro p hp
  rw [bne_iff_ne]
  intro hk
  exact h (List.mem_map.mpr ⟨p, hp, hk.symm⟩)

/-- C3 counterexample: at age 5, gender "Female", 30 days the adjusted dose
is 0.048048 mSv as the claim computes, but the classifier the code runs
returns "No observable effects.", not the claimed table label "None"; and
at dose 60 it returns "Potentially life-threatening dose.", not the
claimed "Extreme/Fatal" that the chart table would give. -/
theorem C3_effect_counterexample :
    adjusted_dose 5 "Female" 30 = 0.048048 ∧
    effect (adjusted_dose 5 "Female" 30) = "No observable effects." ∧
    effect (adjusted_dose 5 "Female" 30) ≠ "None" ∧
    effect 60 = "Potentially life-threatening dose." ∧
    effect 60 ≠ "Extreme/Fatal" ∧
    chart_band_label 60 = "Extreme/Fatal" := by
  have hd : adjusted_dose 5 "Female" 30 = 0.048048 := by
    norm_num [adjusted_dose, raw_dose, BASE_RATE, age_modifier,
      gender_modifier]
  have heff : effect (adjusted_dose 5 "Female" 30) =
      "No observable effects." := by
    rw [hd, effect, if_pos (by norm_num)]
  have h60 : effect 60 = "Potentially life-threatening dose." := by
    norm_num [effect]
  have hcl : chart_band_label 60 = "Extreme/Fatal" := by
    norm_num [chart_band_label]
  exact ⟨hd, heff, by rw [heff]; decide, h60, by rw [h60]; decide, hcl⟩

/-- C3 amended: the classifier the code runs maps [0,1) to
"No observable effects.", [1,5) to "Minor biological impact.", [5,15) to
"Mild ARS possible.", [15,30) to "Severe ARS symptoms." and [30,∞) to
"Potentially life-threatening dose." (one open-ended band from 30, no
split at 50); for age 5, gender "Female", 30 days the adjusted dose is
0.048048 mSv and the classifier returns "No observable effects.". -/
theorem C3_effect_bands (d : ℚ) (_hd : 0 ≤ d) :
    ((d < 1 → effect d = "No observable effects.") ∧
     (1 ≤ d → d < 5 → effect d = "Minor biological impact.") ∧
     (5 ≤ d → d < 15 → effect d = "Mild ARS possible.") ∧
     (15 ≤ d → d < 30 → effect d = "Severe ARS symptoms.") ∧
     (30 ≤ d → effect d = "Potentially life-threatening dose.")) ∧
    adjusted_dose 5 "Female" 30 = 0.048048 ∧
    effect (adjusted_dose 5 "Female" 30) = "No observable effects." := by
  refine ⟨⟨?_, ?_, ?_, ?_, ?_⟩, ?_, ?_⟩
  · intro h1
    rw [effect, if_pos h1]
  · intro h1 h2
    rw [effect, if_neg (not_lt.mpr h1), if_pos h2]
  · intro h1 h2
    rw [effect, if_neg (by linarith), if_neg (not_lt.mpr h1), if_pos h2]
  · intro h1 h2
    rw [effect, if_neg (by linarith), if_neg (by linarith),
      if_neg (not_lt.mpr h1), if_pos h2]
  · intro h1
    rw [effect, if_neg (by linarith), if_neg (by linarith),
      if_neg (by linarith), if_neg (not_lt.mpr h1)]
  · norm_num [adjusted_dose, raw_dose, BASE_RATE, age_modifier,
      gender_modifier]
  · have hd : adjusted_dose 5 "Female" 30 = 0.048048 := by
      norm_num [adjusted_dose, raw_dose, BASE_RATE, age_modifier,
        gender_modifier]
    rw [hd, effect, if_pos (by norm_num)]

/-- C3 witness: the amended band mapping evaluated at doses 0 and 20. -/
theorem C3_effect_bands_witness :
    effect 0 = "No observable effects." ∧
    effect 20 = "Severe ARS symptoms." :=
  ⟨(C3_effect_bands 0 le_rfl).1.1 (by norm_num),
   (C3_effect_bands 20 (by norm_num)).1.2.2.2.1 (by norm_num) (by norm_num)⟩

/-- C4 counterexample: for the undeclared material "Wood" both shielding
dicts fail with the raw KeyError of a Python dict subscript, which is not
the validated InvalidParameter the claim requires. -/
theorem C4_keyerror_counterexample :
    dictLookup shield_factors "Wood" = Except.error PyError.KeyError ∧
    dictLookup attenuation_factors "Wood" = Except.error PyError.KeyError ∧
    (Except.error PyError.KeyError : Except PyError ℚ) ≠
      Except.error PyError.InvalidParameter := by
  refine ⟨rfl, rfl, ?_⟩
  intro h
  exact absurd (Except.error.inj h) (by decide)

/-- C4 amended: the code performs no validation of the shielding selection;
for every selection that is not a declared key, the raw dict subscript in
either attenuation computation raises KeyError (in the app the selectbox
is what keeps the selection inside the declared values). -/
theorem C4_unknown_material_keyerror (m : String)
    (h1 : ¬ m ∈ shield_factors.map Prod.fst)
    (h2 : ¬ m ∈ attenuation_factors.map Prod.fst) :
    dictLookup shield_factors m = Except.error PyError.KeyError ∧
    dictLookup attenuation_factors m = Except.error PyError.KeyError := by
  constructor
  · rw [dictLookup, lookup_eq_none_of_not_mem_keys h1]
  · rw [dictLookup, lookup_eq_none_of_not_mem_keys h2]

/-- C4 witness: the amended behavior at the undeclared key "Wood". -/
theorem C4_unknown_material_keyerror_witness :
    dictLookup shield_factors "Wood" = Except.error PyError.KeyError ∧
    dictLookup attenuation_factors "Wood" = Except.error PyError.KeyError :=
  C4_unknown_material_keyerror "Wood" (by decide) (by decide)

/-- C5 counterexample: a negative parsed flux is used unclamped, so
base_dose_per_day and daily_dose go negative: at flux -5 the base dose per
day is -0.00025 mSv, and with the Aluminum factor 0.7 the daily dose is
negative as well. -/
theorem C5_negative_flux_counterexample :
    base_dose_per_day (-5) = -0.00025 ∧
    base_dose_per_day (-5) < 0 ∧
    daily_dose (-5) 0.7 < 0 := by
  norm_num [base_dose_per_day, daily_dose]

/-- C5 amended: no clamping is applied to the flux; base_dose_per_day is
exactly flux * 0.00005, so it is non-negative precisely when the flux is,
and the daily dose is non-negative whenever the flux and the shielding
factor are. -/
theorem C5_unclamped_flux_sign (flux : ℚ) :
    (0 ≤ base_dose_per_day flux ↔ 0 ≤ flux) ∧
    (∀ factor : ℚ, 0 ≤ factor → 0 ≤ flux → 0 ≤ daily_dose flux factor) := by
  constructor
  · rw [base_dose_per_day]
    constructor
    · intro h
      nlinarith
    · intro h
      exact mul_nonneg h (by norm_num)
  · intro factor hfac hflux
    exact mul_nonneg (mul_nonneg hflux (by norm_num)) hfac

/-- C5 witness: the amended sign facts at flux 100 and factor 0.7. -/
theorem C5_unclamped_flux_sign_witness :
    (0 ≤ base_dose_per_day 100 ↔ 0 ≤ (100 : ℚ)) ∧
    0 ≤ daily_dose 100 0.7 :=
  ⟨(C5_unclamped_flux_sign 100).1,
   (C5_unclamped_flux_sign 100).2 0.7 (by norm_num) (by norm_num)⟩

/-- C6: when the flux fetch raises, fetch_json swallows the exception and
returns no data, the flux actually used is the fallback constant 100, and
the daily dose computation still completes on that fallback value. -/
theorem C6_fetch_failure_fallback (e : String) (factor : ℚ) :
    fetch_json (Except.error e) = none ∧
    flux_used (fetch_json (Except.error e)) = some 100 ∧
    Option.map (fun f => daily_dose f factor)
      (flux_used (fetch_json (Except.error e)))
      = some (daily_dose 100 factor) :=
  ⟨rfl, rfl, rfl⟩

/-- C7: the SEU risk classifier realizes the closed-open band table
[0,1) to "Low", [1,5) to "Moderate", [5,∞) to "High" on every
non-negative count; in particular risk 1 = "Moderate" and
risk 5 = "High". -/
theorem C7_seu_risk_bands :
    (∀ x : ℚ, 0 ≤ x →
      ((x < 1 → risk x = "Low") ∧
       (1 ≤ x → x < 5 → risk x = "Moderate") ∧
       (5 ≤ x → risk x = "High"))) ∧
    risk 1 = "Moderate" ∧ risk 5 = "High" := by
  refine ⟨?_, by norm_num [risk], by norm_num [risk]⟩
  intro x _hx
  refine ⟨?_, ?_, ?_⟩
  · intro h1
    rw [risk, if_pos h1]
  · intro h1 h2
    rw [risk, if_neg (not_lt.mpr h1), if_pos h2]
  · intro h1
    rw [risk, if_neg (by linarith), if_neg (not_lt.mpr h1)]

/-- C7 witness: the band mapping evaluated at count 0.5. -/
theorem C7_seu_risk_bands_witness : risk 0.5 = "Low" :=
  (C7_seu_risk_bands.1 0.5 (by norm_num)).1 (by norm_num)

/-- C8: under the table policy every declared factor lies in (0, 1], and
under the exponential policy every declared coefficient gives a factor in
(0, 1] for every non-negative thickness. -/
theorem C8_attenuation_unit_interval :
    (∀ (m : String) (f : ℚ),
      List.lookup m shield_factors = some f → 0 < f ∧ f ≤ 1) ∧
    (∀ (m : String) (c : ℚ),
      List.lookup m attenuation_factors = some c →
      ∀ t : ℚ, 0 ≤ t →
        0 < shielding_factor t c ∧ shielding_factor t c ≤ 1) := by
  constructor
  · intro m f h
    have hm := lookup_mem_snd h
    simp only [shield_factors, List.map_cons, List.map_nil, List.mem_cons,
      List.not_mem_nil, or_false] at hm
    rcases hm with h1 | h1 | h1 | h1 | h1 | h1 | h1 | h1 <;> rw [h1] <;>
      norm_num
  · intro m c h t ht
    have hm := lookup_mem_snd h
    have hc : 0 < c := by
      simp only [attenuation_factors, List.map_cons, List.map_nil,
        List.mem_cons, List.not_mem_nil, or_false] at hm
      rcases hm with h1 | h1 | h1 | h1 <;> rw [h1] <;> norm_num
    constructor
    · exact Real.exp_pos _
    · rw [shielding_factor, Real.exp_le_one_iff]
      have hcr : (0 : ℝ) < (c : ℝ) := by exact_mod_cast hc
      have htr : (0 : ℝ) ≤ (t : ℝ) := by exact_mod_cast ht
      nlinarith

/-- C8 witness: the factors for Aluminum under both policies, the second
at thickness 10. -/
theorem C8_attenuation_unit_interval_witness :
    (0 < (0.7 : ℚ) ∧ (0.7 : ℚ) ≤ 1) ∧
    (0 < shielding_factor 10 0.07 ∧ shielding_factor 10 0.07 ≤ 1) :=
  ⟨C8_attenuation_unit_interval.1 "Aluminum" 0.7 (by rfl),
   C8_attenuation_unit_interval.2 "Aluminum" 0.07 (by rfl) 10 (by norm_num)⟩

/-- C9: the astronaut-dose ensemble is exactly the raw draws with no
clipping, so a negative draw stays in the output, while every entry of the
device SEU ensemble is clipped to be non-negative. -/
theorem C9_dose_ensemble_unclipped :
    (∀ draws : List ℚ, simulated_doses draws = draws) ∧
    simulated_doses [-1] = [-1] ∧ (-1 : ℚ) < 0 ∧
    (∀ (draws : List ℚ) (x : ℚ),
      x ∈ simulated_failures draws → 0 ≤ x) := by
  refine ⟨fun _ => rfl, rfl, by norm_num, ?_⟩
  intro draws x hx
  rw [simulated_failures, List.mem_map] at hx
  obtain ⟨y, _, hy⟩ := hx
  rw [← hy]
  exact le_max_right y 0

/-- C9 witness: the clipped SEU ensemble of the single draw -1 contains
only the entry 0, which is non-negative. -/
theorem C9_dose_ensemble_unclipped_witness :
    (0 : ℚ) ∈ simulated_failures [-1] ∧ 0 ≤ (0 : ℚ) := by
  have hm : (0 : ℚ) ∈ simulated_failures [-1] := by
    simp [simulated_failures]
  exact ⟨hm, C9_dose_ensemble_unclipped.2.2.2 [-1] 0 hm⟩

/-- C10: the rate provider returns iss = 0.3 on both the success and the
failure branch, so the ISS base dose used by the Mission Dose Comparator
never depends on fetched data; the lunar, mars_transit and deep_space
rates can differ between the two branches. -/
theorem C10_iss_rate_constant :
    (∀ response : Except String EsaData,
      (fetch_space_radiation_data response).iss = 0.3 ∧
      dictLookup (base_doses (fetch_space_radiation_data response))
        "ISS (Low Earth Orbit)" = Except.ok 0.3) ∧
    (fetch_space_radiation_data (Except.ok ⟨some 7, some 8, some 9⟩)).lunar
      ≠ (fetch_space_radiation_data (Except.error "down")).lunar ∧
    (fetch_space_radiation_data
        (Except.ok ⟨some 7, some 8, some 9⟩)).mars_transit
      ≠ (fetch_space_radiation_data (Except.error "down")).mars_transit ∧
    (fetch_space_radiation_data
        (Except.ok ⟨some 7, some 8, some 9⟩)).deep_space
      ≠ (fetch_space_radiation_data (Except.error "down")).deep_space := by
  refine ⟨?_, ?_, ?_, ?_⟩
  · intro response
    cases response with
    | ok d => exact ⟨rfl, rfl⟩
    | error e => exact ⟨rfl, rfl⟩
  all_goals norm_num [fetch_space_radiation_data]

/-- C10 witness: the provider evaluated on a concrete failed fetch. -/
theorem C10_iss_rate_constant_witness :
    (fetch_space_radiation_data (Except.error "timeout")).iss = 0.3 ∧
    dictLookup (base_doses (fetch_space_radiation_data
      (Except.error "timeout"))) "ISS (Low Earth Orbit)" = Except.ok 0.3 :=
  C10_iss_rate_constant.1 (Except.error "timeout")

end Astral
